import Mathlib

/-!
Shallow embedding of the NLPStock news-to-explanation pipeline.

Each definition mirrors one Python function of the repository (module and
function named in its doc comment).  External libraries (HTTP, HTML parsing,
NLTK/spaCy/YAKE tokenizers, the FinBERT pipeline) are modelled as oracle
parameters: the surrounding control flow, string manipulation and arithmetic
are embedded faithfully.  Python floats are modelled as rationals; Python
exceptions raised by an external call are modelled as `Except`/`Option`
failure values threaded through the same `try`/`except` structure as the
source.
-/

namespace NLPStock

/-- The NOT_FOUND sentinel used throughout the pipeline
(`data_fetchers/article_extractor.py` and its consumers). -/
def sentinel : String := "Full article text not found."

/-! ### String helpers

Models of the Python string operations the source relies on:
`needle in haystack` (substring containment), `str.lower`, simple regex
searches.  All operate on `List Char` so they are kernel-computable. -/

/-- Model of Python `haystack.startswith(needle)` at the list level. -/
def startsWithL : List Char → List Char → Bool
  | [], _ => true
  | _ :: _, [] => false
  | a :: as, b :: bs => a = b && startsWithL as bs

/-- First argument is the needle, second the haystack: the needle occurs as a
contiguous segment of the haystack. -/
def infixOfL (needle : List Char) : List Char → Bool
  | [] => needle.isEmpty
  | c :: rest => startsWithL needle (c :: rest) || infixOfL needle rest

/-- Model of Python `needle in haystack` (substring containment). -/
def substrB (needle haystack : String) : Bool :=
  infixOfL needle.toList haystack.toList

/-- Number of positions of `haystack` at which `needle` starts (occurrence
count, overlapping occurrences each counted). -/
def countOccurL (needle : List Char) : List Char → Nat
  | [] => if needle.isEmpty then 1 else 0
  | c :: rest =>
    (if startsWithL needle (c :: rest) then 1 else 0) + countOccurL needle rest

def countOccur (needle haystack : String) : Nat :=
  countOccurL needle.toList haystack.toList

/-- Model of Python `s.lower()` (kernel-reducible form of character-wise
lowercasing). -/
def strLower (s : String) : String := String.mk (s.toList.map Char.toLower)

/-- Model of Python `s.upper()`. -/
def strUpper (s : String) : String := String.mk (s.toList.map Char.toUpper)

/-- Model of Python `s.startswith(pre)`. -/
def startsWithS (s pre : String) : Bool := startsWithL pre.toList s.toList

/-- Model of Python `s.split(sep)` for a one-character separator. -/
def splitOnCharL (sep : Char) : List Char → List (List Char)
  | [] => [[]]
  | c :: rest =>
    let r := splitOnCharL sep rest
    if c = sep then [] :: r
    else
      match r with
      | [] => [[c]]
      | h :: t => (c :: h) :: t

def splitOnChar (sep : Char) (s : String) : List String :=
  (splitOnCharL sep s.toList).map String.mk

/-- Model of Python `s.strip()` (default whitespace stripping). -/
def pyStrip (s : String) : String :=
  String.mk
    (((s.toList.dropWhile Char.isWhitespace).reverse.dropWhile
        Char.isWhitespace).reverse)

end NLPStock

namespace NLPStock

/-! ### `nlp_processing/text_preprocessing.py` -/

/-- `FINANCIAL_KEYWORDS` of `nlp_processing/text_preprocessing.py`,
transcribed entry by entry.  Note the list itself repeats `'guidance'` and
`'revenue'`. -/
def FINANCIAL_KEYWORDS : List String :=
  ["earnings", "revenue", "profit", "loss", "guidance", "forecast", "outlook",
   "dividend", "acquisition", "merger", "buyback", "restructuring", "layoff",
   "lawsuit", "settlement", "regulation", "investigation", "approval", "launch",
   "patent", "contract", "partnership", "investment", "debt", "bankruptcy",
   "downgrade", "upgrade", "target", "rating", "analyst", "quarterly", "annual",
   "growth", "decline", "beat", "miss", "exceed", "below", "above", "estimate",
   "expectation", "surprise", "guidance", "CEO", "executive", "management",
   "board", "director", "shareholder", "investor", "stake", "share", "stock",
   "market", "trading", "volatility", "volume", "price", "valuation", "multiple",
   "ratio", "EPS", "P/E", "revenue", "sales", "margin", "cost", "expense",
   "capital", "cash", "flow", "balance", "sheet", "asset", "liability"]

/-- Model of `re.search(r'\d+\.?\d*%?', sentence)`: the pattern matches
somewhere iff the sentence contains a digit. -/
def hasNumber (s : String) : Bool := s.toList.any Char.isDigit

/-- Leading run of digits of a character list: its length and the rest. -/
def spanDigits : List Char → Nat × List Char
  | [] => (0, [])
  | c :: rest =>
    if c.isDigit then
      let (n, r) := spanDigits rest
      (n + 1, r)
    else (0, c :: rest)

/-- Leading run of whitespace: its length and the rest. -/
def spanWs : List Char → Nat × List Char
  | [] => (0, [])
  | c :: rest =>
    if c.isWhitespace then
      let (n, r) := spanWs rest
      (n + 1, r)
    else (0, c :: rest)

/-- Whether `\d+\.?\d*\s+dollars` matches at the start of the list. -/
def matchNumDollarsAt (cs : List Char) : Bool :=
  let (d, r1) := spanDigits cs
  if d = 0 then false
  else
    let r2 := match r1 with
      | '.' :: t => (spanDigits t).2
      | _ => r1
    let (w, r3) := spanWs r2
    if w = 0 then false else startsWithL "dollars".toList r3

/-- Model of `re.search(r'\$\d+\.?\d*|\d+\.?\d*\s+dollars', sentence)`:
either a dollar sign immediately followed by a digit occurs, or a number
followed by whitespace and the word `dollars` does. -/
def hasCurrencyL : List Char → Bool
  | [] => false
  | c :: rest =>
    (c = '$' && (match rest with | d :: _ => d.isDigit | [] => false))
      || matchNumDollarsAt (c :: rest)
      || hasCurrencyL rest

def hasCurrency (s : String) : Bool := hasCurrencyL s.toList

/-- The per-sentence score loop of `extract_key_sentences`
(`nlp_processing/text_preprocessing.py`): +3 company name, +2 ticker,
+1 for each entry of `FINANCIAL_KEYWORDS` whose lowercase text occurs in the
lowercase sentence (substring test, entry by entry), +1 for a numeric
pattern, +2 for a currency amount. -/
def scoreSentence (company_name_lower ticker_lower sentence : String) : Nat :=
  let s := strLower sentence
  let base :=
    (if substrB company_name_lower s then 3 else 0)
      + (if substrB ticker_lower s then 2 else 0)
  let withKw := FINANCIAL_KEYWORDS.foldl
    (fun acc kw => if substrB (strLower kw) s then acc + 1 else acc) base
  let withNum := if hasNumber sentence then withKw + 1 else withKw
  if hasCurrency sentence then withNum + 2 else withNum

/-- Stable insertion (descending by key): a new element goes after all
already-placed elements whose key is greater than or equal to its own.  This
is the semantics of Python's stable `list.sort(key=..., reverse=True)`. -/
def insertDescBy {α : Type} (lt : α → α → Bool) (x : α) : List α → List α
  | [] => [x]
  | y :: ys => if lt y x then x :: y :: ys else y :: insertDescBy lt x ys

/-- Stable descending sort (`list.sort(key=..., reverse=True)`). -/
def stableSortDesc {α : Type} (lt : α → α → Bool) (l : List α) : List α :=
  l.foldl (fun acc x => insertDescBy lt x acc) []

/-- Body of `extract_key_sentences` after sentence tokenization: score,
stable-sort descending, take the top `top_n`, join with spaces. -/
def extract_key_sentences_core (sentences : List String)
    (company_name ticker : String) (top_n : Nat) : String :=
  let company_name_lower := strLower company_name
  let ticker_lower := strLower ticker
  let scored := sentences.map
    (fun s => (s, scoreSentence company_name_lower ticker_lower s))
  let sortedScored := stableSortDesc (fun y x => y.2 < x.2) scored
  let top := (sortedScored.take top_n).map (fun p => p.1)
  String.intercalate " " top

/-- `extract_key_sentences(text, company_name, ticker, top_n=10)` of
`nlp_processing/text_preprocessing.py`.  `sent_tokenize` (NLTK) is the
oracle `sentTok`. -/
def extract_key_sentences (sentTok : String → List String)
    (text company_name ticker : String) (top_n : Nat := 10) : String :=
  if text = sentinel || text = "" then ""
  else extract_key_sentences_core (sentTok text) company_name ticker top_n

/-! The claim's reading of the scoring rule, used to compare against the
source: "+1 per occurrence of any term in the fixed financial-keyword
vocabulary", i.e. each occurrence of each distinct vocabulary term adds one
point. -/

/-- Per-sentence score as claim C5 states it: identical to the source except
that the keyword component counts the occurrences of each distinct
vocabulary term. -/
def scoreSentenceClaimed (company_name_lower ticker_lower sentence : String) : Nat :=
  let s := strLower sentence
  let base :=
    (if substrB company_name_lower s then 3 else 0)
      + (if substrB ticker_lower s then 2 else 0)
  let withKw := FINANCIAL_KEYWORDS.dedup.foldl
    (fun acc kw => acc + countOccur (strLower kw) s) base
  let withNum := if hasNumber sentence then withKw + 1 else withKw
  if hasCurrency sentence then withNum + 2 else withNum

/-- The key-sentence extractor as claim C5 states it. -/
def extract_key_sentences_claimed_core (sentences : List String)
    (company_name ticker : String) (top_n : Nat) : String :=
  let company_name_lower := strLower company_name
  let ticker_lower := strLower ticker
  let scored := sentences.map
    (fun s => (s, scoreSentenceClaimed company_name_lower ticker_lower s))
  let sortedScored := stableSortDesc (fun y x => y.2 < x.2) scored
  let top := (sortedScored.take top_n).map (fun p => p.1)
  String.intercalate " " top

end NLPStock

namespace NLPStock

/-! ### Numeric formatting

Model of Python's `f"{x:.2f}"` on the rationals that stand in for Python
floats: round to two decimal places (ties to even) and print with two
digits after the point. -/

def pad2 (n : ℕ) : String := if n < 10 then "0" ++ toString n else toString n

/-- Model of `f"{q:.2f}"`: round `q` to two decimal places (nearest, ties
to even — the rounding of Python's float formatting) and print with two
digits after the point.  Computed on the numerator and denominator:
`f = ⌊100q⌋` via floor division, and the remainder `100q - f` is compared
against one half by cross-multiplication. -/
def fmt2 (q : ℚ) : String :=
  let num := q.num * 100
  let den : ℤ := (q.den : ℤ)
  let f := Int.fdiv num den
  let rem2 := 2 * (num - f * den)
  let n := if rem2 < den then f
    else if den < rem2 then f + 1
    else if f % 2 = 0 then f else f + 1
  (if n < 0 then "-" else "")
    ++ toString (n.natAbs / 100) ++ "." ++ pad2 (n.natAbs % 100)

/-! ### `summarization/llm_client.py` -/

/-- One entry of the FinBERT sentiment output: `{'label': ..., 'score': ...}`. -/
structure SentScore where
  label : String
  score : ℚ
deriving DecidableEq

/-- Model of `max(sentiment_scores, key=lambda x: x['score'])`: the first
maximal element; `none` models the `ValueError` Python raises on an empty
list. -/
def maxByScore : List SentScore → Option SentScore
  | [] => none
  | x :: rest =>
    some (rest.foldl (fun best y => if best.score < y.score then y else best) x)

/-- Python's `\w` character class (ASCII reading). -/
def isWordChar (c : Char) : Bool := c.isAlphanum || c = '_'

/-- Leading run of word characters and the rest. -/
def spanWordChars : List Char → List Char × List Char
  | [] => ([], [])
  | c :: rest =>
    if isWordChar c then
      let (w, r) := spanWordChars rest
      (c :: w, r)
    else ([], c :: rest)

/-- Try `kw\s+(\w+)` (and, when `requireStock` is set, a further `\s+stock`)
anchored at the start of the list; the captured word on success. -/
def matchKwCaptureAt (kw : List Char) (requireStock : Bool) (cs : List Char) :
    Option String :=
  if startsWithL kw cs then
    let r1 := cs.drop kw.length
    let (w, r2) := spanWs r1
    if w = 0 then none
    else
      let (word, r3) := spanWordChars r2
      if word.isEmpty then none
      else if requireStock then
        let (w2, r4) := spanWs r3
        if w2 = 0 then none
        else if startsWithL "stock".toList r4 then some (String.mk word) else none
      else some (String.mk word)
  else none

def reSearchCaptureL (kw : List Char) (requireStock : Bool) :
    List Char → Option String
  | [] => none
  | c :: rest =>
    match matchKwCaptureAt kw requireStock (c :: rest) with
    | some w => some w
    | none => reSearchCaptureL kw requireStock rest

/-- Model of `re.search(kw + r'\s+(\w+)', s)` (with an optional trailing
`\s+stock`), returning the captured group. -/
def reSearchCapture (kw : String) (requireStock : Bool) (s : String) :
    Option String :=
  reSearchCaptureL kw.toList requireStock s.toList

/-- `re.match(r'^\d+\.', stripped)`. -/
def startsWithNumDot (s : String) : Bool :=
  let (d, r) := spanDigits s.toList
  d ≠ 0 && (match r with | '.' :: _ => true | _ => false)

/-- The result triple of `LLMClient._extract_key_info`. -/
structure KeyInfo where
  symbol : Option String
  keywords : List String
  news_points : List String

/-- The `topics` list of `LLMClient._extract_key_info`, transcribed. -/
def topicsList : List String :=
  ["earnings", "revenue", "profit", "loss", "growth", "decline",
   "acquisition", "merger", "partnership", "launch", "product",
   "market share", "competition", "regulatory", "investigation",
   "lawsuit", "settlement", "dividend", "buyback", "expansion",
   "investment", "innovation", "leadership", "CEO", "executive",
   "forecast", "guidance", "outlook", "analyst", "rating", "upgrade",
   "downgrade", "target price", "valuation", "market", "sector",
   "industry", "economy", "inflation", "interest rate", "federal reserve",
   "tariff", "trade", "supply chain", "inventory", "demand", "AI",
   "artificial intelligence", "technology", "data", "privacy",
   "cloud", "software", "hardware", "retail", "ecommerce", "payment",
   "healthcare", "drug", "vaccine", "treatment", "oil", "gas", "energy",
   "green", "sustainable", "electric vehicle", "EV", "battery"]

/-- The news-point line filter of `_extract_key_info`: keep the stripped
line when it is non-empty and indented, bulleted, numbered, or simply not
the whole prompt. -/
def newsPointsOf (prompt : String) : List String :=
  (splitOnChar '\n' prompt).foldr
    (fun line acc =>
      let stripped := pyStrip line
      if !(stripped == "")
          && (startsWithS line "    " || startsWithS line "\t"
              || startsWithS stripped "-" || startsWithS stripped "•"
              || startsWithNumDot stripped
              || (stripped.length > 0 && !(stripped == prompt))) then
        stripped :: acc
      else acc)
    []

/-- `LLMClient._extract_key_info(prompt)`. -/
def keyInfoOf (prompt : String) : KeyInfo :=
  let symbol := reSearchCapture "about" false prompt
  let news_points := newsPointsOf prompt
  let full_text := prompt ++ " " ++ String.intercalate " " news_points
  let ftl := strLower full_text
  let keywords := topicsList.filter (fun t => substrB (strLower t) ftl)
  let ai_related := ["ai", "artificial intelligence", "machine learning",
    "ml", "neural network"].any (fun t => substrB t ftl)
  let keywords := if ai_related then keywords ++ ["AI"] else keywords
  let cloud_related := ["cloud", "aws", "azure", "gcp", "hosting", "saas",
    "software as a service"].any (fun t => substrB t ftl)
  let keywords := if cloud_related then keywords ++ ["cloud"] else keywords
  ⟨symbol, keywords, news_points⟩

/-- `any(term in point.lower() for term in terms)`. -/
def anyTerm (terms : List String) (point : String) : Bool :=
  terms.any (fun t => substrB t (strLower point))

/-- Ordered de-duplicating insert: the model of adding to the
`relevant_products` set (set iteration order modelled as insertion order). -/
def addUnique (x : String) (l : List String) : List String :=
  if l.contains x then l else l ++ [x]

def relevantProductsOf (product_news : List String) : List String :=
  product_news.foldl
    (fun acc p =>
      let pl := strLower p
      let acc := if substrB "ai" pl || substrB "artificial intelligence" pl then
        addUnique "AI technology" acc else acc
      let acc := if substrB "cloud" pl then addUnique "cloud services" acc else acc
      if substrB "product" pl || substrB "launch" pl then
        addUnique "new products" acc else acc)
    []

def productStrOf (relevant_products : List String) : String :=
  if relevant_products.length > 1 then
    String.intercalate ", " (relevant_products.dropLast)
      ++ " and " ++ (relevant_products.getLastD "")
  else (relevant_products.headD "")

/-- The news-point-driven factor block of `LLMClient._craft_response`
(the body of its `if news_points:`). -/
def factorsFromNewsPoints (symbol label : String)
    (keywords news_points : List String) : List String :=
  let earnings_news := news_points.filter (anyTerm
    ["earnings", "revenue", "profit", "growth", "financials", "income", "sales"])
  let factors : List String :=
    if !earnings_news.isEmpty
        && (keywords.contains "earnings" || keywords.contains "revenue"
            || keywords.contains "profit") then
      if label = "positive" then
        ["Financial performance: " ++ symbol ++ " reported strong financial results that exceeded market expectations, boosting investor confidence in the company's growth trajectory."]
      else if label = "negative" then
        ["Financial concerns: " ++ symbol ++ " may have reported financial results below market expectations, raising concerns about growth prospects."]
      else
        ["Mixed financial signals: " ++ symbol ++ "'s financial performance shows both strengths and challenges, leading to a balanced market reaction."]
    else []
  let product_news := news_points.filter (anyTerm
    ["product", "launch", "technology", "announced", "release", "update",
     "new", "innovation", "ai", "cloud"])
  let factors :=
    if !product_news.isEmpty then
      let relevant_products := relevantProductsOf product_news
      if !relevant_products.isEmpty then
        factors ++ ["Technology advancements: " ++ symbol ++ "'s developments in "
          ++ productStrOf relevant_products
          ++ " are attracting investor attention and could drive future growth, affecting market perception of the company's competitive position."]
      else factors
    else factors
  let market_news := news_points.filter (anyTerm
    ["market", "sector", "industry", "competition", "competitor", "share", "position"])
  let factors :=
    if !market_news.isEmpty then
      factors ++ ["Market positioning: News about " ++ symbol ++ "'s market share, competitive landscape, or industry trends is impacting how investors view the company's future prospects."]
    else factors
  let global_news := news_points.filter (anyTerm
    ["global", "international", "china", "europe", "regulatory", "regulation",
     "government", "authority", "approval", "reject"])
  let factors :=
    if !global_news.isEmpty then
      let china_mentioned := global_news.any (fun p => substrB "china" (strLower p))
      let europe_mentioned := global_news.any (fun p => substrB "europe" (strLower p))
      if china_mentioned then
        factors ++ ["China market access: " ++ symbol ++ "'s potential improvements in access to the Chinese market could represent a significant growth opportunity, as China is one of the world's largest economies."]
      else if europe_mentioned then
        factors ++ ["European operations: Developments in " ++ symbol ++ "'s European business could be affecting investor sentiment due to the region's importance for global companies."]
      else
        factors ++ ["International developments: " ++ symbol ++ "'s interactions with global markets or regulatory bodies could be affecting investor sentiment, particularly regarding expansion opportunities or compliance costs."]
    else factors
  let factors :=
    if (news_points.any (fun p => substrB "cloud" (strLower p)))
        && keywords.contains "cloud" then
      if news_points.any (fun p =>
          substrB "profit" (strLower p) || substrB "profitable" (strLower p)) then
        factors ++ ["Cloud profitability milestone: " ++ symbol ++ "'s cloud division reaching profitability represents a significant achievement that could improve overall margins and validate the company's long-term investment in this area."]
      else
        factors ++ ["Cloud business performance: " ++ symbol ++ "'s cloud division results are influencing investor perceptions about the company's growth in this high-margin, rapidly expanding market segment."]
    else factors
  let factors :=
    if (news_points.any (fun p =>
          substrB "ai" (strLower p) || substrB "artificial intelligence" (strLower p)))
        && keywords.contains "AI" then
      if news_points.any (fun p => substrB "search" (strLower p)) then
        factors ++ ["AI-enhanced search: " ++ symbol ++ "'s integration of advanced AI into its core search business could strengthen its competitive position and open new monetization opportunities, potentially driving future revenue growth."]
      else
        factors ++ ["AI strategy: " ++ symbol ++ "'s artificial intelligence initiatives are being evaluated by the market in terms of their potential to drive future revenue growth and maintain competitive advantages."]
    else factors
  factors

/-- The sentiment-driven factor block of `_craft_response` (the body of the
first `if len(factors) < 3:`). -/
def sentimentFactors (symbol label : String) (keywords : List String) :
    List String :=
  if label = "positive" then
    (if keywords.contains "earnings" || keywords.contains "revenue"
        || keywords.contains "profit" then
      ["Financial performance: " ++ symbol ++ " reported strong financial results that exceeded market expectations, boosting investor confidence in the company's growth trajectory."]
    else [])
    ++ (if keywords.contains "product" || keywords.contains "launch"
        || keywords.contains "innovation" then
      ["Product announcements: Recent product launches or innovation announcements from " ++ symbol ++ " have received positive market reception, potentially driving up investor interest."]
    else [])
    ++ (if keywords.contains "acquisition" || keywords.contains "merger"
        || keywords.contains "expansion" then
      ["Strategic expansion: " ++ symbol ++ "'s strategic acquisitions or expansion plans signal growth potential and could be contributing to positive stock movement."]
    else [])
    ++ (if keywords.contains "buyback" || keywords.contains "dividend" then
      ["Shareholder returns: Announced share buybacks or dividend increases demonstrate financial strength and commitment to shareholder value."]
    else [])
    ++ ["Market sentiment: A decrease in market volatility and an optimistic sentiment could lead to increased investor confidence and a boost in stock prices, including " ++ symbol ++ "."]
    ++ (if keywords.contains "interest rate" || keywords.contains "federal reserve" then
      ["Monetary policy: Recent signals from the Federal Reserve regarding interest rates could be favorable for growth stocks."]
    else [])
    ++ (if keywords.contains "trade" then
      ["Trade deal hopes: Potential trade agreements could reduce tariffs and positively impact the global economy, benefiting companies like " ++ symbol ++ " with international exposure."]
    else [])
  else if label = "negative" then
    (if keywords.contains "earnings" || keywords.contains "revenue"
        || keywords.contains "profit" then
      ["Financial concerns: " ++ symbol ++ " may have reported financial results below market expectations, raising concerns about growth prospects."]
    else [])
    ++ (if keywords.contains "competition" then
      ["Competitive pressures: Increasing competition in " ++ symbol ++ "'s market could be threatening its market share and future revenue growth."]
    else [])
    ++ (if keywords.contains "regulatory" || keywords.contains "investigation"
        || keywords.contains "lawsuit" then
      ["Regulatory challenges: " ++ symbol ++ " might be facing regulatory scrutiny or legal challenges that could impact its operations or impose financial penalties."]
    else [])
    ++ ["Market volatility: Increased market uncertainty and risk aversion could be driving investors away from stocks like " ++ symbol ++ "."]
    ++ (if keywords.contains "interest rate" || keywords.contains "federal reserve" then
      ["Monetary policy: Changes in interest rate expectations could be pressuring growth stock valuations."]
    else [])
    ++ (if keywords.contains "inflation" then
      ["Inflation concerns: Rising inflation might be impacting \x7bsymbol\x7d's cost structure and profit margins."]
    else [])
  else
    (if keywords.contains "earnings" || keywords.contains "revenue" then
      ["Mixed financial signals: " ++ symbol ++ "'s financial performance shows both strengths and challenges, leading to a balanced market reaction."]
    else [])
    ++ ["Sector rotation: Investors might be reallocating portfolios across different sectors, affecting " ++ symbol ++ "'s stock regardless of company-specific news."]
    ++ (if keywords.contains "leadership" || keywords.contains "CEO"
        || keywords.contains "executive" then
      ["Leadership transition: Changes in " ++ symbol ++ "'s leadership team could be creating uncertainty as investors wait to assess the impact."]
    else [])
    ++ ["Market indecision: Traders might be waiting for additional information or catalysts before making significant moves on " ++ symbol ++ "."]

/-- The generic factor block of `_craft_response` (the body of the second
`if len(factors) < 3:`). -/
def genericFactors (symbol : String) (keywords : List String) : List String :=
  (if keywords.contains "market" || keywords.contains "sector"
      || keywords.contains "industry" then
    ["Industry trends: Broader trends in " ++ symbol ++ "'s industry could be influencing investor sentiment and trading patterns."]
  else [])
  ++ ["Technical factors: Trading patterns, option expirations, or index rebalancing could be contributing to the stock's movement."]
  ++ ["Investor positioning: Institutional investors might be adjusting their positions in " ++ symbol ++ " based on their overall portfolio strategy."]

/-- The factor pipeline of `_craft_response`: news-point factors, then the
sentiment block when fewer than three, then the generic block when still
fewer than three, capped at five. -/
def craftFactors (symbol label : String) (keywords news_points : List String) :
    List String :=
  let f1 := if !news_points.isEmpty then
    factorsFromNewsPoints symbol label keywords news_points else []
  let f2 := if f1.length < 3 then f1 ++ sentimentFactors symbol label keywords else f1
  let f3 := if f2.length < 3 then f2 ++ genericFactors symbol keywords else f2
  f3.take 5

/-- `"\n".join(f"    {i+1}. {factor}" ...)`. -/
def numberFactors : Nat → List String → List String
  | _, [] => []
  | i, f :: fs => ("    " ++ toString (i + 1) ++ ". " ++ f) :: numberFactors (i + 1) fs

/-- `LLMClient._craft_response(prompt, sentiment_scores)`.  `none` models the
`ValueError` from `max` on an empty score list (caught by `generate`'s
retry loop). -/
def craft_response (prompt : String) (sentiment_scores : List SentScore) :
    Option String :=
  match maxByScore sentiment_scores with
  | none => none
  | some dominant =>
    let label := dominant.label
    let score := dominant.score
    let key_info := keyInfoOf prompt
    let symbol := key_info.symbol.getD "the company"
    let keywords := key_info.keywords
    let news_points := key_info.news_points
    if substrB "why the stock might be moving" prompt then
      let intro := "Based on the news summaries, the stock of " ++ symbol
        ++ " might be moving due to the following reasons:"
      let factors := craftFactors symbol label keywords news_points
      some (intro ++ "\n\n"
        ++ String.intercalate "\n" (numberFactors 0 factors)
        ++ "\n\nAdditionally, the stock might be influenced by factors such as market liquidity, trading algorithms, and general economic conditions affecting the broader market.")
    else if substrB "might relate to the stock moving" prompt then
      let symbol := (reSearchCapture "about" true prompt).getD "this company"
      let direction := (reSearchCapture "moving" false prompt).getD
        "in its current direction"
      if label = "positive" then
        some ("The news provides highly relevant information that explains why "
          ++ symbol ++ " stock is moving " ++ direction
          ++ ". The content indicates positive developments such as strong financial performance, strategic initiatives that could drive growth, and favorable market conditions. These factors are likely increasing investor confidence in "
          ++ symbol
          ++ "'s business outlook, leading to increased buying interest. The sentiment analysis indicates a positive outlook (confidence: "
          ++ fmt2 score ++ ") which aligns with the stock's movement pattern.")
      else if label = "negative" then
        some ("The news contains information that directly relates to why "
          ++ symbol ++ " stock is moving " ++ direction
          ++ ". The content reveals challenges such as financial underperformance, competitive pressures, or other business headwinds that are likely affecting investor sentiment. These factors appear to be reducing confidence in "
          ++ symbol
          ++ "'s near-term prospects, potentially leading to selling pressure. The sentiment analysis indicates negative concerns (confidence: "
          ++ fmt2 score ++ ") which helps explain the stock's movement.")
      else
        some ("The news provides context that may explain why "
          ++ symbol ++ " stock is moving " ++ direction
          ++ ". The content presents a mixed picture with both positive elements (such as certain business strengths or opportunities) and challenges (such as competitive or economic headwinds). This balanced perspective suggests that investors are weighing multiple factors when trading "
          ++ symbol
          ++ " shares. The sentiment analysis shows a neutral assessment (confidence: "
          ++ fmt2 score
          ++ "), indicating that the stock movement may be driven by additional factors beyond this specific news.")
    else
      if label = "positive" then
        some "Analysis indicates a favorable outlook for the financial performance and market position based on the provided information. Key positive factors identified include potential revenue growth opportunities, strong competitive positioning, and favorable market conditions that could support future value creation."
      else if label = "negative" then
        some "Analysis suggests potential concerns regarding financial performance and market challenges based on the provided information. Key risk factors identified include possible revenue pressures, competitive threats, and market headwinds that could impact business prospects and valuation."
      else
        some "Analysis presents a balanced perspective on financial performance and market position based on the provided information. Both positive factors (including potential growth opportunities and strengths) and challenges (including competitive and market pressures) have been identified, suggesting a complex outlook with multiple influencing variables."

/-- `LLMClient._generate_fallback(prompt)`. -/
def generate_fallback (prompt : String) : String :=
  if substrB "why the stock might be moving" prompt then
    let symbol := (reSearchCapture "about" false prompt).getD "the company"
    "Based on the news summaries, the stock of " ++ symbol
      ++ " might be moving due to the following reasons:\n\n    1. Market sentiment: Changes in overall market sentiment and volatility could be affecting investor behavior toward "
      ++ symbol
      ++ ".\n    2. Sector trends: Industry-specific developments might be causing investors to reassess companies in this sector.\n    3. Company announcements: Recent press releases, financial reports, or product announcements from "
      ++ symbol
      ++ " could be driving trading activity.\n    4. Analyst actions: Changes in analyst recommendations, target prices, or earnings estimates may be influencing investor decisions.\n\nAdditionally, the stock might be influenced by factors such as macroeconomic data, trading algorithms, and general market conditions."
  else if substrB "might relate to the stock moving" prompt then
    let symbol := (reSearchCapture "about" true prompt).getD "this company"
    let direction := (reSearchCapture "moving" false prompt).getD
      "in its current direction"
    "The news provides relevant information about " ++ symbol
      ++ "'s business operations, market positioning, and potential catalysts that could explain why the stock is moving "
      ++ direction
      ++ ". Key factors include industry trends, financial performance, and investor sentiment."
  else
    "The information provided suggests potential implications for financial markets and stock performance, with several factors that could influence investor decisions and market movements."

/-- The `LLMClient` instance state: `use_fallback` is the only field the
embedded behavior depends on. -/
structure LLMClient where
  use_fallback : Bool

/-- `LLMClient.__init__`: sets `use_fallback` iff loading the FinBERT model
raised (the model load is the oracle `initRaises`). -/
def LLMClient.init (initRaises : Bool) : LLMClient := ⟨initRaises⟩

/-- The retry loop of `LLMClient.generate` (`max_retries = 3`): `pl i` is
the outcome of the sentiment pipeline on attempt `i` (`none` = the attempt
raised; the oracle delivers the unwrapped score list).  Returns the
generated text and the number of pipeline attempts made. -/
def generateLoop (pl : Nat → Option (List SentScore)) (prompt : String) :
    Nat → Nat → String × Nat
  | i, 0 => (generate_fallback prompt, i)
  | i, fuel + 1 =>
    match pl i with
    | some scores =>
      match craft_response prompt scores with
      | some r => (r, i + 1)
      | none =>
        if fuel = 0 then (generate_fallback prompt, i + 1)
        else generateLoop pl prompt (i + 1) fuel
    | none =>
      if fuel = 0 then (generate_fallback prompt, i + 1)
      else generateLoop pl prompt (i + 1) fuel

/-- `LLMClient.generate(prompt)`: a client already in fallback mode makes no
pipeline attempt; otherwise up to three attempts, then the fallback. -/
def LLMClient.generate (c : LLMClient) (pl : Nat → Option (List SentScore))
    (prompt : String) : String × Nat :=
  if c.use_fallback then (generate_fallback prompt, 0)
  else generateLoop pl prompt 0 3

end NLPStock

namespace NLPStock

/-! ### `nlp_processing/nlp_processor.py` -/

/-- One news-cache item: the dictionary keys the pipeline reads.  An absent
key is `none`.  A wholly empty (falsy) dictionary is modelled as `none` at
`Option Article`. -/
structure Article where
  title : Option String := none
  headline : Option String := none
  url : Option String := none
  link : Option String := none
  date : Option String := none
  publication_date : Option String := none
  full_article_text : Option String := none

/-- The dictionary `process_article` builds. -/
structure ProcessedArticle where
  title : String
  url : String
  date : String
  key_sentences : String
  named_entities : List (String × List String)
  keywords : List String
  condensed_text : String

/-- The external NLP capabilities `process_article` calls: NLTK's
`sent_tokenize`, spaCy's entity tagger (whose invocation can raise — the
only uncaught failure inside the distiller), and the YAKE/frequency keyword
extractor (which catches its own failures). -/
structure NlpEnv where
  sentTok : String → List String
  entities : String → Except Unit (List (String × List String))
  keywords : String → List String

def allowedEntityTypes : List String :=
  ["ORG", "PERSON", "GPE", "MONEY", "PERCENT", "DATE"]

/-- The `condensed_text` synthesis of `process_article`: title, key
sentences, the filtered entity types (each capped to its first five
entries), then keywords. -/
def condensedOf (title key_sentences : String)
    (ents : List (String × List String)) (kws : List String) : String :=
  let base := "Title: " ++ title ++ "\n\n"
    ++ "Key information: " ++ key_sentences ++ "\n\n"
  let withEnts :=
    if ents.isEmpty then base
    else base ++ "Named entities:\n"
      ++ String.join (ents.map (fun p =>
          if allowedEntityTypes.contains p.1 then
            "- " ++ p.1 ++ ": " ++ String.intercalate ", " (p.2.take 5) ++ "\n"
          else ""))
  if kws.isEmpty then withEnts
  else withEnts ++ "Keywords: " ++ String.intercalate ", " kws ++ "\n"

/-- `process_article(article, company_name, ticker)` of
`nlp_processing/nlp_processor.py`.  `Except.error` propagates a raise from
the entity tagger (uncaught in the source); `.ok none` is the source's
`return None`. -/
def process_article (env : NlpEnv) (article : Option Article)
    (company_name ticker : String) : Except Unit (Option ProcessedArticle) :=
  match article with
  | none => .ok none
  | some a =>
    match a.full_article_text with
    | none => .ok none
    | some text =>
      if text = "" || text = sentinel then .ok none
      else
        match env.entities text with
        | .error e => .error e
        | .ok ents =>
          let title := a.title.getD (a.headline.getD "")
          let url := a.url.getD (a.link.getD "")
          let date := a.date.getD (a.publication_date.getD "")
          let ks := extract_key_sentences env.sentTok text company_name ticker
          let kws := env.keywords text
          .ok (some { title := title, url := url, date := date,
                      key_sentences := ks, named_entities := ents,
                      keywords := kws,
                      condensed_text := condensedOf title ks ents kws })

/-- `process_articles_batch(articles, company_name, ticker)`: process each,
keep the non-`None` results. -/
def process_articles_batch (env : NlpEnv) (articles : List (Option Article))
    (company_name ticker : String) : Except Unit (List ProcessedArticle) :=
  match articles with
  | [] => .ok []
  | a :: rest =>
    match process_article env a company_name ticker with
    | .error e => .error e
    | .ok p =>
      match process_articles_batch env rest company_name ticker with
      | .error e => .error e
      | .ok ps =>
        match p with
        | some pa => .ok (pa :: ps)
        | none => .ok ps

end NLPStock

namespace NLPStock

/-! ### `summarization/why_it_moves_simple.py` -/

/-- The environment of one orchestrator run: the article-text extractor
(network + HTML parsing), the NLP oracles, and the generation backend
oracles.  `initRaises`/`pipeline` are indexed by the prompt of the call
that constructs/uses the client — every summarization call constructs its
own fresh `LLMClient`. -/
structure Env where
  extract : String → String
  nlp : NlpEnv
  initRaises : String → Bool
  pipeline : String → Nat → Option (List SentScore)
  nowStr : String

/-- The per-article prompt of `summarize_article`
(`summarization/why_it_moves_simple.py`). -/
def articlePrompt (symbol direction article_text : String) : String :=
  "\n    Analyze this processed news information about " ++ symbol
    ++ " stock and explain how it might relate to the stock moving "
    ++ direction
    ++ ". \n    Focus on key factors that could influence stock price.\n    \n    Processed information: "
    ++ article_text ++ "\n    "

/-- `summarize_article(article_text, symbol, direction)`: `none` for empty
or sentinel text, otherwise a fresh `LLMClient` generates from the article
prompt.  Also returns the number of pipeline attempts the call made. -/
def summarize_article (env : Env) (article_text symbol direction : String) :
    Option String × Nat :=
  if article_text = "" || article_text = sentinel then (none, 0)
  else
    let prompt := articlePrompt symbol direction article_text
    let client := LLMClient.init (env.initRaises prompt)
    let r := client.generate (env.pipeline prompt) prompt
    (some r.1, r.2)

/-- `[summary for summary in article_summaries if summary]` of
`summarize_articles`. -/
def valid_summaries (article_summaries : List String) : List String :=
  article_summaries.filter (fun s => !(s == ""))

/-- The aggregation prompt of `summarize_articles`
(`summarization/why_it_moves_simple.py`). -/
def aggPrompt (symbol : String) (valid : List String) : String :=
  "\n    Based on these news summaries about " ++ symbol
    ++ ", provide a concise explanation of why the stock might be moving:\n    \n    "
    ++ String.intercalate " " valid ++ "\n    "

/-- `summarize_articles(article_summaries, symbol)` of
`summarization/why_it_moves_simple.py`. -/
def summarize_articles (env : Env) (article_summaries : List String)
    (symbol : String) : String :=
  if article_summaries.isEmpty then "No valid articles found to summarize."
  else
    let valid := valid_summaries article_summaries
    if valid.isEmpty then "No valid summaries to combine."
    else
      let prompt := aggPrompt symbol valid
      let client := LLMClient.init (env.initRaises prompt)
      (client.generate (env.pipeline prompt) prompt).1

/-- `classify_company(net_change_percentage)` of
`summarization/why_it_moves_simple.py` (identical in `why_it_moves.py`). -/
def classify_company (net_change_percentage : ℚ) : String :=
  if net_change_percentage > 0 then "gainer" else "loser"

/-- The article-enrichment step of `process_company_data`: count an article
that already carries non-sentinel text; otherwise, when it has a URL and no
text field at all, extract and attach the text, counting it when the
extraction is not the sentinel.  Returns the (possibly enriched) article,
its contribution to `articles_with_text`, and whether the extractor ran. -/
def enrichArticle (extract : String → String) (article : Option Article) :
    Option Article × Nat × Bool :=
  match article with
  | none => (none, 0, false)
  | some a =>
    match a.full_article_text with
    | some t => (some a, if t ≠ sentinel then 1 else 0, false)
    | none =>
      let url := a.url.getD ""
      if url ≠ "" then
        let t := extract url
        (some { a with full_article_text := some t },
          if t ≠ sentinel then 1 else 0, true)
      else (some a, 0, false)

/-- What a run did besides computing its result: how many extractor calls
it made, whether the NLP distiller ran, and how many generation calls it
made. -/
structure Effects where
  extractCalls : Nat
  nlpRan : Bool
  genCalls : Nat
deriving DecidableEq, Repr

def Effects.none' : Effects := ⟨0, false, 0⟩

/-- The per-article record `process_company_data` stores in
`processed_data` (the article's summary is attached to it when one is
generated). -/
structure ArticleData where
  title : String
  url : String
  date : String
  key_sentences : String
  named_entities : List (String × List String)
  keywords : List String
  condensed_text : String
  summary : Option String

/-- The summary dictionary `process_company_data` / `why_it_moves` build:
keys that some branches omit are `Option`s. -/
structure MoverResult where
  symbol : String
  exchange : String
  type : String
  period : Option String
  summary : String
  processed_articles : Option (List ArticleData)

/-- The loop over `processed_articles` in `process_company_data`: for each
processed article with non-empty condensed text, store its data and attempt
a per-article summary.  Returns (processed_data, summaries, generation
calls). -/
def summariesLoop (env : Env) (symbol direction : String) :
    List ProcessedArticle → List ArticleData × List String × Nat
  | [] => ([], [],0)
  | p :: rest =>
    let r := summariesLoop env symbol direction rest
    let datas := r.1
    let sums := r.2.1
    let calls := r.2.2
    if p.condensed_text ≠ "" then
      let s := (summarize_article env p.condensed_text symbol direction).1
      let kept := match s with
        | some s0 => if s0 = "" then none else some s0
        | none => none
      let data : ArticleData :=
        { title := p.title, url := p.url, date := p.date,
          key_sentences := p.key_sentences,
          named_entities := p.named_entities, keywords := p.keywords,
          condensed_text := p.condensed_text, summary := kept }
      (data :: datas, (match kept with | some s0 => s0 :: sums | none => sums),
        calls + 1)
    else (datas, sums, calls)

/-- The canned summary used when no news articles exist or none carries
usable text. -/
def noNewsSummary : String :=
  "There are no news currently affecting the stock price, fluctuations might be due to market conditions."

/-- `process_company_data(symbol, exchange, news_articles, classification)`
of `summarization/why_it_moves_simple.py`. -/
def process_company_data (env : Env) (symbol exchange : String)
    (news_articles : List (Option Article)) (classification : String) :
    MoverResult × Effects :=
  let direction := if classification = "gainer" then "up"
    else if classification = "loser" then "down" else "neutral"
  if news_articles.isEmpty then
    ({ symbol := symbol, exchange := exchange, type := classification,
       period := some "day", summary := noNewsSummary,
       processed_articles := none }, Effects.none')
  else
    let enriched := news_articles.map (enrichArticle env.extract)
    let articles' := enriched.map (fun t => t.1)
    let articles_with_text := (enriched.map (fun t => t.2.1)).sum
    let extractCalls := (enriched.filter (fun t => t.2.2)).length
    if articles_with_text = 0 then
      ({ symbol := symbol, exchange := exchange, type := classification,
         period := some "day", summary := noNewsSummary,
         processed_articles := none },
       ⟨extractCalls, false, 0⟩)
    else
      match process_articles_batch env.nlp articles' symbol symbol with
      | .error _ =>
        ({ symbol := symbol, exchange := exchange, type := classification,
           period := some "day",
           summary := "There was an error generating the summary.",
           processed_articles := none },
         ⟨extractCalls, true, 0⟩)
      | .ok processed_articles =>
        let loopOut := summariesLoop env symbol direction processed_articles
        let processed_data := loopOut.1
        let genCalls := loopOut.2.2
        let summaries := loopOut.2.1.filter (fun s => !(s == ""))
        if summaries.isEmpty then
          ({ symbol := symbol, exchange := exchange, type := classification,
             period := some "day",
             summary := "No valid article summaries could be generated.",
             processed_articles := some processed_data },
           ⟨extractCalls, true, genCalls⟩)
        else
          let explanation := summarize_articles env summaries symbol
          ({ symbol := symbol, exchange := exchange, type := classification,
             period := none, summary := explanation,
             processed_articles := some processed_data },
           ⟨extractCalls, true, genCalls + 1⟩)

/-- The on-disk news cache for one symbol: `none` when
`STOCK_DB/news/{symbol}_news.json` does not exist, `some (.error ())` when
it exists but `load_json` cannot parse it, `some (.ok articles)`
otherwise. -/
def NewsFile : Type := Option (Except Unit (List (Option Article)))

/-- `get_news_articles(symbol)` of `summarization/why_it_moves_simple.py`:
missing file or load error gives `[]`, otherwise the five most recent
(leading) articles. -/
def get_news_articles (f : NewsFile) : List (Option Article) :=
  match f with
  | none => []
  | some (.error _) => []
  | some (.ok articles) => articles.take 5

/-- The full mover-summary dictionary `why_it_moves` returns. -/
structure MoverSummary where
  symbol : String
  exchange : String
  type : String
  period : Option String
  summary : String
  processed_articles : Option (List ArticleData)
  daily_change_percentage : ℚ
  date_generated : String

/-- The no-news-data summary text of `why_it_moves`. -/
def noNewsDataSummary (symbol : String) (daily_change_percentage : ℚ) : String :=
  "No news data available for " ++ symbol ++ ". The stock's movement of "
    ++ fmt2 daily_change_percentage
    ++ "% may be related to market conditions or unreported news."

/-- `why_it_moves(symbol, exchange, daily_change_percentage)` of
`summarization/why_it_moves_simple.py`, as a function of the run
environment and the symbol's cached news file.  Returns the summary it
persists and the run's effects. -/
def why_it_moves (env : Env) (newsFile : NewsFile)
    (symbol exchange : String) (daily_change_percentage : ℚ) :
    MoverSummary × Effects :=
  let classification := classify_company daily_change_percentage
  match newsFile with
  | none =>
    ({ symbol := symbol, exchange := exchange, type := classification,
       period := some "day",
       summary := noNewsDataSummary symbol daily_change_percentage,
       processed_articles := none,
       daily_change_percentage := daily_change_percentage,
       date_generated := env.nowStr }, Effects.none')
  | some _ =>
    let news_articles := get_news_articles newsFile
    let r := process_company_data env symbol exchange news_articles classification
    ({ symbol := r.1.symbol, exchange := r.1.exchange,
       type := r.1.type, period := r.1.period,
       summary := r.1.summary,
       processed_articles := r.1.processed_articles,
       daily_change_percentage := daily_change_percentage,
       date_generated := env.nowStr }, r.2)

end NLPStock

namespace NLPStock

/-! ### `data_fetchers/article_extractor.py` -/

/-- The exception classes `extract_article_text` distinguishes. -/
inductive NetErr
  | timeout
  | reqError
  | other
deriving DecidableEq

/-- What the HTML-parsing layer (BeautifulSoup) yields for a fetched page:
each field is the result of one of the source's `find` queries.
`caasBody` is the text of the Yahoo `caas-body` container; `mainBodyParas`
the paragraph texts of the `main-body-container article-body` container
(each `get_text()`, un-stripped); `articleParas` the stripped paragraph
texts of the generic article container; `allParas` the stripped texts of
all paragraphs of the page. -/
structure HtmlPage where
  caasBody : Option String
  mainBodyParas : Option (List String)
  articleParas : Option (List String)
  allParas : List String

/-- One HTTP response: final status, final (post-redirect) URL, parsed
page. -/
structure HttpResp where
  status : Nat
  url : String
  page : HtmlPage

/-- `status_forcelist=(500, 502, 504)` of `create_retry_session`. -/
def status_forcelist : List Nat := [500, 502, 504]

/-- The `urllib3.util.retry.Retry` behavior of the session built by
`create_retry_session(retries=3, ...)`: `oracle i` is the outcome of the
`i`-th HTTP request (`Except.error` = the request raised).  A raising
request or a forcelist status is retried while retries remain; with
`raise_on_status=False` the last response is returned as is.  Returns the
final outcome and the number of requests issued. -/
def retryGetAux (oracle : Nat → Except NetErr HttpResp) (i : Nat) :
    Nat → Except NetErr HttpResp × Nat
  | 0 => (oracle i, i + 1)
  | retries + 1 =>
    match oracle i with
    | .error _ => retryGetAux oracle (i + 1) retries
    | .ok resp =>
      if status_forcelist.contains resp.status then
        retryGetAux oracle (i + 1) retries
      else (.ok resp, i + 1)

/-- `retry_session.get(...)` with the module-level session
(`retries = 3`). -/
def retrySessionGet (oracle : Nat → Except NetErr HttpResp) :
    Except NetErr HttpResp × Nat :=
  retryGetAux oracle 0 3

/-- `extract_article_text(article_url, ...)` of
`data_fetchers/article_extractor.py`.  All network and parse failures are
converted to the sentinel. -/
def extract_article_text (oracle : Nat → Except NetErr HttpResp)
    (article_url : String) : String :=
  if article_url = "" || article_url = "No URL" then sentinel
  else
    match (retrySessionGet oracle).1 with
    | .error _ => sentinel
    | .ok resp =>
      if resp.status = 404 then sentinel
      else if resp.status ≠ 200 then sentinel
      else
        let yahooText : Option String :=
          if substrB "finance.yahoo.com" resp.url then resp.page.caasBody
          else none
        match yahooText with
        | some full_text => full_text
        | none =>
          match resp.page.mainBodyParas with
          | some paras => pyStrip (String.intercalate " " paras)
          | none =>
            let genericText : Option String :=
              match resp.page.articleParas with
              | some paras =>
                if paras.isEmpty then none
                else
                  let full_text := String.intercalate " " paras
                  if full_text = "" then none else some full_text
              | none => none
            match genericText with
            | some full_text => full_text
            | none =>
              if resp.page.allParas.isEmpty then sentinel
              else
                let full_text :=
                  String.intercalate "\n" resp.page.allParas
                if full_text.length > 100 then full_text else sentinel

end NLPStock

namespace NLPStock

/-! ### `data_fetchers/fetch_european_news.py` -/

/-- One RSS entry, with the keys `fetch_european_news` reads. -/
structure EuFeedEntry where
  published : Option String := none
  title : Option String := none
  link : Option String := none
  url : Option String := none

/-- One article `fetch_european_news` returns. -/
structure EuArticle where
  title : String
  url : String
  date : String
  full_article_text : String
deriving DecidableEq

/-- The oracles of `fetch_european_news`: `dateutil`'s fuzzy date parser
(raising on an unparsable string) producing a UTC timestamp in seconds, the
article extractor, and the current time in seconds. -/
structure EuEnv where
  parseDate : String → Except Unit ℤ
  extract : String → String
  now : ℤ

/-- Seconds per day, for the `timedelta(days=30)` window. -/
def daySecs : ℤ := 86400

/-- The per-entry loop of `fetch_european_news`: skip entries with no
publication date, an unparsable date, a date older than 30 days, no URL or
sentinel text; stop after three kept articles.  A raise inside one entry is
caught and the loop continues. -/
def euLoop (env : EuEnv) : List EuFeedEntry → List EuArticle → List EuArticle
  | [], acc => acc
  | e :: rest, acc =>
    let one_month_ago := env.now - 30 * daySecs
    match e.published with
    | none => euLoop env rest acc
    | some pub_date =>
      if pub_date = "" then euLoop env rest acc
      else
        match env.parseDate pub_date with
        | .error _ => euLoop env rest acc
        | .ok article_date =>
          if article_date < one_month_ago then euLoop env rest acc
          else
            let headline := e.title.getD "No Title"
            let url := e.link.getD (e.url.getD "")
            if url = "" then euLoop env rest acc
            else
              let full_text := env.extract url
              if full_text = sentinel then euLoop env rest acc
              else
                let acc' := acc ++
                  [{ title := headline, url := url, date := pub_date,
                     full_article_text := full_text }]
                if 3 ≤ acc'.length then acc' else euLoop env rest acc'

/-- `fetch_european_news(symbol)`: the RSS fetch itself may raise (whole
call returns `[]`), otherwise the filtering loop runs. -/
def fetch_european_news (env : EuEnv)
    (rss : Except Unit (List EuFeedEntry)) : List EuArticle :=
  match rss with
  | .error _ => []
  | .ok articles => euLoop env articles []

/-! ### `data_fetchers/fetch_alpha_vantage_news.py` -/

/-- One `ticker_sentiment` entry of an Alpha Vantage feed item. -/
structure AVTickerSent where
  ticker : String
  relevance_score : Option ℚ := none
  ticker_sentiment_score : Option ℚ := none

/-- One item of the Alpha Vantage `feed`, with the keys the fetcher
reads. -/
structure AVFeedItem where
  title : Option String := none
  url : Option String := none
  source : Option String := none
  time_published : Option String := none
  summary : Option String := none
  ticker_sentiment : Option (List AVTickerSent) := none

/-- One formatted article `fetch_alpha_vantage_news` returns. -/
structure AVArticle where
  title : String
  url : String
  source : String
  date : String
  full_article_text : String
deriving DecidableEq

/-- The oracles of `fetch_alpha_vantage_news`: the API key lookup, the API
response (`.error` = the request raised; `none` feed = no `feed` key or a
non-200 status), `get_article_full_text`, and
`datetime.strptime(..., "%Y%m%dT%H%M%S")` (the parsed date's `isoformat()`
on success). -/
structure AVEnv where
  apiKey : Option String
  response : Except Unit (Option (List AVFeedItem))
  getText : String → String
  parseAVDate : String → Option String

/-- The relevance score of one feed item for `symbol`: the first matching
`ticker_sentiment` entry's `relevance_score` (falling back to its
`ticker_sentiment_score`, then 0); 0 with no `ticker_sentiment` at all. -/
def avRelevance (symbol : String) (a : AVFeedItem) : ℚ :=
  match a.ticker_sentiment with
  | none => 0
  | some l =>
    match l.find? (fun ts => ts.ticker = symbol) with
    | none => 0
    | some ts => ts.relevance_score.getD (ts.ticker_sentiment_score.getD 0)

/-- Formatting of one top article: `article["url"]` is read with direct
indexing (a missing key raises, aborting the whole fetch); a failed text
extraction falls back to the item's Alpha Vantage summary; an unparsable or
missing date falls back to the raw `time_published` value. -/
def avFormatItem (env : AVEnv) (a : AVFeedItem) : Except Unit AVArticle :=
  match a.url with
  | none => .error ()
  | some u =>
    let ft0 := env.getText u
    let full_text :=
      if startsWithS ft0 "Full article text not available"
          || startsWithS ft0 "Error retrieving" then
        a.summary.getD "No summary available"
      else ft0
    let formatted_date :=
      match a.time_published with
      | none => "Unknown date"
      | some tp =>
        match env.parseAVDate tp with
        | some iso => iso ++ "Z"
        | none => tp
    .ok { title := a.title.getD "No title", url := a.url.getD "No URL",
          source := a.source.getD "Alpha Vantage", date := formatted_date,
          full_article_text := full_text }

def avFormatItems (env : AVEnv) : List AVFeedItem → Except Unit (List AVArticle)
  | [] => .ok []
  | a :: rest =>
    match avFormatItem env a with
    | .error e => .error e
    | .ok out =>
      match avFormatItems env rest with
      | .error e => .error e
      | .ok outs => .ok (out :: outs)

/-- `fetch_alpha_vantage_news(symbol, limit=3)` of
`data_fetchers/fetch_alpha_vantage_news.py`: sort the feed by relevance
(stable, descending), take the top `limit`, format each.  No date filter of
any kind is applied. -/
def fetch_alpha_vantage_news (env : AVEnv) (symbol : String)
    (limit : Nat := 3) : List AVArticle :=
  match env.apiKey with
  | none => []
  | some _ =>
    match env.response with
    | .error _ => []
    | .ok none => []
    | .ok (some feed) =>
      let withRel := feed.map (fun a => (a, avRelevance symbol a))
      let sorted := stableSortDesc (fun y x => y.2 < x.2) withRel
      let top_articles := (sorted.take limit).map (fun p => p.1)
      match avFormatItems env top_articles with
      | .error _ => []
      | .ok news_data => news_data

end NLPStock

namespace NLPStock

/-! ### `data_fetchers/combined_news_fetcher.py` -/

/-- The file system holding the per-symbol news snapshots
(`STOCK_DB/news/{symbol}_news.json`), as a map from path to stored article
list. -/
def NewsFs : Type := String → Option (List Article)

def newsPath (symbol : String) : String :=
  "STOCK_DB/news/" ++ symbol ++ "_news.json"

def fswrite (fs : NewsFs) (path : String) (v : List Article) : NewsFs :=
  fun p => if p = path then some v else fs p

/-- The per-source results available to `fetch_all_news_for_symbol`: what
each fetcher would return for this symbol. -/
structure FetchersEnv where
  alpha : List Article
  us : List Article
  eu : List Article
  nordic : String → List Article
  baltic : String → List Article

/-- `get_gcf_issuer_id(symbol)` of
`data_fetchers/combined_news_fetcher.py`: the mapping dictionary in the
source is empty, so the lookup is always `None`. -/
def get_gcf_issuer_id (_symbol : String) : Option String :=
  ([] : List (String × String)).lookup _symbol

/-- The routing of `fetch_all_news_for_symbol`: pick the fetcher chain by
exchange code (Alpha Vantage with MarketBeat fallback for the US family
and for unknown exchanges; the regional fetchers need an issuer id). -/
def routeArticles (env : FetchersEnv) (symbol exchange : String) :
    List Article :=
  let ex := strUpper exchange
  if ["US", "NYSE", "NASDAQ", "AMEX"].contains ex then
    if env.alpha.isEmpty then env.us else env.alpha
  else if ["EU", "EURONEXT", "XETRA", "LSE"].contains ex then env.eu
  else if ["NORDIC", "OMXH", "OMXS", "OMXC"].contains ex then
    match get_gcf_issuer_id symbol with
    | some gcfIssuerId => env.nordic gcfIssuerId
    | none => []
  else if ["BALTIC", "OMXT", "OMXR", "OMXV"].contains ex then
    match get_gcf_issuer_id symbol with
    | some gcfIssuerId => env.baltic gcfIssuerId
    | none => []
  else
    if env.alpha.isEmpty then env.us else env.alpha

/-- `fetch_all_news_for_symbol(symbol, exchange)` of
`data_fetchers/combined_news_fetcher.py`: route to the fetchers, then save
the articles to `STOCK_DB/news/{symbol}_news.json` **only if** the list is
non-empty.  Returns the articles and the updated file system. -/
def fetch_all_news_for_symbol (env : FetchersEnv) (fs : NewsFs)
    (symbol : String) (exchange : String := "US") : List Article × NewsFs :=
  let articles := routeArticles env symbol exchange
  if !articles.isEmpty then
    (articles, fswrite fs (newsPath symbol) articles)
  else (articles, fs)

end NLPStock

namespace NLPStock

/-! ### Theorems -/

/-- C9: movement classification is a total function of the sign of
`daily_change_percentage`: strictly positive values classify as "gainer",
values less than or equal to zero — including exactly zero — classify as
"loser", and no other value is ever produced. -/
theorem classify_company_sign_total (q : ℚ) :
    (classify_company q = "gainer" ↔ 0 < q)
      ∧ (classify_company q = "loser" ↔ q ≤ 0)
      ∧ (classify_company q = "gainer" ∨ classify_company q = "loser")
      ∧ classify_company 0 = "loser" := by
  unfold classify_company
  refine ⟨?_, ?_, ?_, by norm_num⟩
  · split_ifs with h
    · simpa using h
    · constructor
      · intro hgain; exact absurd hgain (by decide)
      · intro h0; exact absurd h0 h
  · split_ifs with h
    · constructor
      · intro hlose; exact absurd hlose (by decide)
      · intro h0; exact absurd h (not_lt.mpr h0)
    · simpa using not_lt.mp h
  · split_ifs <;> simp

/-- C10: the combined news fetcher writes the `{symbol}_news.json` cache
file only when the fetch produced at least one article; when every source
in the chain returns zero articles the previously persisted snapshot is
left unchanged, and a non-empty fetch overwrites exactly this symbol's
snapshot. -/
theorem fetch_all_news_cache_write_guard (env : FetchersEnv) (fs : NewsFs)
    (symbol exchange : String) :
    ((fetch_all_news_for_symbol env fs symbol exchange).1 = [] →
      (fetch_all_news_for_symbol env fs symbol exchange).2 = fs)
    ∧ ((fetch_all_news_for_symbol env fs symbol exchange).1 ≠ [] →
      (fetch_all_news_for_symbol env fs symbol exchange).2 (newsPath symbol)
          = some (fetch_all_news_for_symbol env fs symbol exchange).1
        ∧ ∀ p, p ≠ newsPath symbol →
          (fetch_all_news_for_symbol env fs symbol exchange).2 p = fs p) := by
  unfold fetch_all_news_for_symbol
  by_cases h : routeArticles env symbol exchange = []
  · simp [h, fswrite]
  · simp only [h, List.isEmpty_eq_true, if_neg h, Bool.not_eq_true']
    rw [if_pos]
    · refine ⟨fun hc => absurd hc h, fun _ => ⟨by simp [fswrite], ?_⟩⟩
      intro p hp
      simp [fswrite, hp]
    · simpa [List.isEmpty_eq_true] using h

def emptyFetchers : FetchersEnv :=
  ⟨[], [], [], fun _ => [], fun _ => []⟩

def oneArticleFetchers : FetchersEnv :=
  ⟨[{ title := some "t" }], [], [], fun _ => [], fun _ => []⟩

/-- Witness for C10: with every source empty the file system is untouched;
with one Alpha Vantage article the snapshot for the symbol is written. -/
theorem fetch_all_news_cache_write_guard_witness :
    ((fetch_all_news_for_symbol emptyFetchers (fun _ => none) "AAPL" "US").2
        = (fun _ => none))
    ∧ (fetch_all_news_for_symbol oneArticleFetchers (fun _ => none) "AAPL" "US").2
        (newsPath "AAPL")
        = some (fetch_all_news_for_symbol oneArticleFetchers (fun _ => none) "AAPL" "US").1 :=
  ⟨(fetch_all_news_cache_write_guard emptyFetchers (fun _ => none) "AAPL" "US").1 rfl,
   ((fetch_all_news_cache_write_guard oneArticleFetchers (fun _ => none) "AAPL" "US").2
      (fun h => List.noConfusion h)).1⟩

end NLPStock

namespace NLPStock

/-! ### C8: token-overlap de-duplication -/

/-- The token set of a sentence, as claim C8 describes it: whitespace-split
words, de-duplicated. -/
def specTokens (s : String) : List String :=
  ((splitOnChar ' ' s).filter (fun t => !(t == ""))).dedup

/-- The duplicate criterion claim C8 states: token-set overlap (intersection
size over the smaller set's size) above 80%, or one token set a subset of
the other. -/
def specOverlapDup (a b : String) : Bool :=
  let ta := specTokens a
  let tb := specTokens b
  let inter := (ta.filter (fun t => tb.contains t)).length
  let m := min ta.length tb.length
  (decide (0 < m) && decide (m * 4 < inter * 5))
    || ta.all (fun t => tb.contains t) || tb.all (fun t => ta.contains t)

/-- The combination rule claim C8 states: of any two sentences meeting the
duplicate criterion, only the first is kept (a sentence is dropped when an
earlier kept sentence duplicates it). -/
def specDedupKeepFirstAux (kept : List String) : List String → List String
  | [] => []
  | s :: rest =>
    if kept.any (fun k => specOverlapDup k s) then
      specDedupKeepFirstAux kept rest
    else s :: specDedupKeepFirstAux (kept ++ [s]) rest

def specDedupKeepFirst (l : List String) : List String :=
  specDedupKeepFirstAux [] l

def dupSent : String := "Shares rose on strong earnings."

set_option maxRecDepth 40000 in
/-- Counterexample to C8: the aggregate stage of `summarize_articles`
performs no such de-duplication.  Two identical generated sentences — which
meet the claimed >80%-overlap/subset criterion — are both kept and both
joined into the aggregation prompt, where the claimed rule would keep only
the first. -/
theorem summarize_articles_no_dedup_cex :
    valid_summaries [dupSent, dupSent] = [dupSent, dupSent]
      ∧ specOverlapDup dupSent dupSent = true
      ∧ specDedupKeepFirst [dupSent, dupSent] = [dupSent]
      ∧ valid_summaries [dupSent, dupSent]
          ≠ specDedupKeepFirst [dupSent, dupSent]
      ∧ countOccur dupSent (aggPrompt "AAPL" (valid_summaries [dupSent, dupSent])) = 2 := by
  refine ⟨by decide, by decide, by decide, by decide, by decide⟩

/-- C8 (amended): when combining generated sentences the aggregate stage
keeps every non-empty summary, duplicates included — the multiplicity of
each non-empty sentence is preserved by the `valid_summaries` filter that
feeds the aggregation prompt. -/
theorem valid_summaries_count_preserved (l : List String) (s : String)
    (hs : s ≠ "") : (valid_summaries l).count s = l.count s := by
  induction l with
  | nil => rfl
  | cons a rest ih =>
    unfold valid_summaries at ih ⊢
    by_cases ha : a = ""
    · subst ha
      simp only [List.filter_cons]
      have : (!(("" : String) == "")) = false := by decide
      rw [this]
      simp only [Bool.false_eq_true, if_false, ih]
      rw [List.count_cons]
      simp [Ne.symm hs]
    · simp only [List.filter_cons]
      have : (!(a == "")) = true := by
        simp only [Bool.not_eq_true', beq_eq_false_iff_ne, ne_eq]
        exact ha
      rw [this]
      simp only [if_true, List.count_cons, ih]

/-- Witness for C8's amended theorem: both copies of the duplicate sentence
survive the filter. -/
theorem valid_summaries_count_preserved_witness :
    (valid_summaries [dupSent, dupSent]).count dupSent
      = [dupSent, dupSent].count dupSent :=
  valid_summaries_count_preserved [dupSent, dupSent] dupSent (by decide)

end NLPStock

namespace NLPStock

/-! ### C5: key-sentence extraction -/

/-- `extract_key_sentences` as claim C5 states it (occurrence-counted
scoring over the distinct vocabulary), with the source's empty/sentinel
guard. -/
def extract_key_sentences_claimed (sentTok : String → List String)
    (text company_name ticker : String) (top_n : Nat := 10) : String :=
  if text = sentinel || text = "" then ""
  else extract_key_sentences_claimed_core (sentTok text) company_name ticker top_n

def cexTok : String → List String := fun _ => ["merger", "guidance"]

set_option maxRecDepth 40000 in
/-- Counterexample to C5: on a text whose sentences are "merger" and
"guidance", the source scores "guidance" 2 (the keyword list contains the
entry `'guidance'` twice) while the claimed per-occurrence scoring gives
each sentence 1; the source therefore reorders the sentences where the
claimed algorithm, tied, keeps original order. -/
theorem extract_key_sentences_scoring_cex :
    extract_key_sentences cexTok "merger. guidance" "acme" "acm"
        = "guidance merger"
      ∧ extract_key_sentences_claimed cexTok "merger. guidance" "acme" "acm"
        = "merger guidance"
      ∧ extract_key_sentences cexTok "merger. guidance" "acme" "acm"
        ≠ extract_key_sentences_claimed cexTok "merger. guidance" "acme" "acm"
      ∧ scoreSentence "acme" "acm" "guidance" = 2
      ∧ scoreSentenceClaimed "acme" "acm" "guidance" = 1 := by
  refine ⟨by decide, by decide, by decide, by decide, by decide⟩

/-- Helper: the imperative keyword loop accumulates exactly the count of
matching list entries. -/
theorem keyword_foldl_eq_countP (p : String → Bool) (l : List String) (base : ℕ) :
    l.foldl (fun acc kw => if p kw then acc + 1 else acc) base
      = base + l.countP p := by
  induction l generalizing base with
  | nil => simp [List.countP_nil]
  | cons a rest ih =>
    rw [List.foldl_cons, ih, List.countP_cons]
    split_ifs <;> omega

/-- Per-sentence score in the closed form of the amended claim: +3 company
mention, +2 ticker mention, +1 for each entry of the keyword list (which
holds `'guidance'` and `'revenue'` twice) whose lowercase text occurs as a
substring of the lowercase sentence, +1 numeric pattern, +2 currency
amount. -/
def scoreSentenceAmended (company_name_lower ticker_lower sentence : String) : Nat :=
  let s := strLower sentence
  3 * (if substrB company_name_lower s then 1 else 0)
    + 2 * (if substrB ticker_lower s then 1 else 0)
    + FINANCIAL_KEYWORDS.countP (fun kw => substrB (strLower kw) s)
    + (if hasNumber sentence then 1 else 0)
    + 2 * (if hasCurrency sentence then 1 else 0)

theorem scoreSentence_eq_amended (cn tk s : String) :
    scoreSentence cn tk s = scoreSentenceAmended cn tk s := by
  unfold scoreSentence scoreSentenceAmended
  dsimp only
  rw [keyword_foldl_eq_countP]
  split_ifs <;> omega

/-- The key-sentence extractor in the amended claim's formulation:
amended scoring, stable descending sort (ties in original order), top
`top_n`, joined with spaces. -/
def extract_key_sentences_amended (sentTok : String → List String)
    (text company_name ticker : String) (top_n : Nat := 10) : String :=
  if text = sentinel || text = "" then ""
  else
    let company_name_lower := strLower company_name
    let ticker_lower := strLower ticker
    let scored := (sentTok text).map
      (fun s => (s, scoreSentenceAmended company_name_lower ticker_lower s))
    let sortedScored := stableSortDesc (fun y x => y.2 < x.2) scored
    String.intercalate " " ((sortedScored.take top_n).map (fun p => p.1))

/-- C5 (amended): the source's key-sentence extraction coincides with the
amended description — scoring +3/+2 for company/ticker mentions, +1 per
matching *entry* of the keyword list (duplicated entries counting twice),
+1 for a numeric pattern, +2 for a currency amount, sorted stably in
descending score order, top 10 by default, joined with spaces. -/
theorem extract_key_sentences_eq_amended (sentTok : String → List String)
    (text company_name ticker : String) (top_n : Nat) :
    extract_key_sentences sentTok text company_name ticker top_n
      = extract_key_sentences_amended sentTok text company_name ticker top_n := by
  unfold extract_key_sentences extract_key_sentences_amended
    extract_key_sentences_core
  simp only [scoreSentence_eq_amended]

end NLPStock

namespace NLPStock

/-! ### C3: article extractor -/

/-- C3: the article text extractor converts every failure into the
NOT_FOUND sentinel instead of raising — invalid URL, a raising request
(timeout/DNS/connection), a non-200 status, and a page with no matching
content container all yield the sentinel; and a first response of 404 is
terminal: the session issues exactly one request (no retry) and the
extractor returns the sentinel. -/
theorem extract_article_text_failure_paths :
    (∀ oracle, extract_article_text oracle "" = sentinel
      ∧ extract_article_text oracle "No URL" = sentinel)
    ∧ (∀ oracle url e, (retrySessionGet oracle).1 = Except.error e →
        extract_article_text oracle url = sentinel)
    ∧ (∀ oracle url resp, (retrySessionGet oracle).1 = Except.ok resp →
        resp.status ≠ 200 → extract_article_text oracle url = sentinel)
    ∧ (∀ oracle url resp, (retrySessionGet oracle).1 = Except.ok resp →
        resp.status = 200 → resp.page = ⟨none, none, none, []⟩ →
        extract_article_text oracle url = sentinel)
    ∧ (∀ oracle url resp, oracle 0 = Except.ok resp → resp.status = 404 →
        retrySessionGet oracle = (Except.ok resp, 1)
          ∧ extract_article_text oracle url = sentinel) := by
  refine ⟨fun oracle => ⟨rfl, rfl⟩, ?_, ?_, ?_, ?_⟩
  · intro oracle url e h
    unfold extract_article_text
    split_ifs with hu
    · rfl
    · rw [h]
  · intro oracle url resp h hs
    unfold extract_article_text
    split_ifs with hu
    · rfl
    · rw [h]
      by_cases h404 : resp.status = 404
      · simp [h404]
      · simp [h404, hs]
  · intro oracle url resp h hs hpage
    unfold extract_article_text
    split_ifs with hu
    · rfl
    · rw [h]
      have h404 : resp.status ≠ 404 := by omega
      simp [h404, hs, hpage]
  · intro oracle url resp h0 h404
    have hget : retrySessionGet oracle = (Except.ok resp, 1) := by
      unfold retrySessionGet retryGetAux
      rw [h0]
      dsimp only
      rw [h404]
      rfl
    refine ⟨hget, ?_⟩
    unfold extract_article_text
    split_ifs with hu
    · rfl
    · rw [hget]
      simp [h404]

def oracle404 : Nat → Except NetErr HttpResp :=
  fun _ => Except.ok ⟨404, "http://gone", ⟨none, none, none, []⟩⟩

def oracleTimeout : Nat → Except NetErr HttpResp :=
  fun _ => Except.error NetErr.timeout

/-- Witness for C3 at concrete inputs: a timed-out request yields the
sentinel; a 404 yields the sentinel after exactly one request. -/
theorem extract_article_text_failure_paths_witness :
    extract_article_text oracleTimeout "http://a" = sentinel
      ∧ retrySessionGet oracle404 = (Except.ok ⟨404, "http://gone", ⟨none, none, none, []⟩⟩, 1)
      ∧ extract_article_text oracle404 "http://a" = sentinel :=
  ⟨extract_article_text_failure_paths.2.1 oracleTimeout "http://a" NetErr.timeout rfl,
   (extract_article_text_failure_paths.2.2.2.2 oracle404 "http://a" _ rfl rfl).1,
   (extract_article_text_failure_paths.2.2.2.2 oracle404 "http://a" _ rfl rfl).2⟩

end NLPStock

namespace NLPStock

/-! ### C6: recency filtering -/

/-- An article whose stored date string parses to a timestamp within the
30-day lookback window. -/
def inWindow (env : EuEnv) (a : EuArticle) : Prop :=
  ∃ d, env.parseDate a.date = Except.ok d ∧ env.now - 30 * daySecs ≤ d

theorem euLoop_window_invariant (env : EuEnv) :
    ∀ (entries : List EuFeedEntry) (acc : List EuArticle),
      (∀ a ∈ acc, inWindow env a) → ∀ a ∈ euLoop env entries acc, inWindow env a := by
  intro entries
  induction entries with
  | nil =>
    intro acc hacc a ha
    rw [euLoop] at ha
    exact hacc a ha
  | cons e rest ih =>
    intro acc hacc a ha
    rw [euLoop] at ha
    cases hpub : e.published with
    | none =>
      simp only [hpub] at ha
      exact ih acc hacc a ha
    | some pd =>
      simp only [hpub] at ha
      by_cases hemp : pd = ""
      · rw [if_pos hemp] at ha
        exact ih acc hacc a ha
      · rw [if_neg hemp] at ha
        cases hpd : env.parseDate pd with
        | error err =>
          simp only [hpd] at ha
          exact ih acc hacc a ha
        | ok d =>
          simp only [hpd] at ha
          by_cases hold : d < env.now - 30 * daySecs
          · rw [if_pos hold] at ha
            exact ih acc hacc a ha
          · rw [if_neg hold] at ha
            by_cases hurl : e.link.getD (e.url.getD "") = ""
            · rw [if_pos hurl] at ha
              exact ih acc hacc a ha
            · rw [if_neg hurl] at ha
              by_cases hsent : env.extract (e.link.getD (e.url.getD "")) = sentinel
              · rw [if_pos hsent] at ha
                exact ih acc hacc a ha
              · rw [if_neg hsent] at ha
                have hacc' : ∀ b ∈ acc ++
                    [{ title := e.title.getD "No Title",
                       url := e.link.getD (e.url.getD ""), date := pd,
                       full_article_text :=
                         env.extract (e.link.getD (e.url.getD "")) : EuArticle }],
                    inWindow env b := by
                  intro b hb
                  rcases List.mem_append.mp hb with hb | hb
                  · exact hacc b hb
                  · rcases List.mem_singleton.mp hb with rfl
                    exact ⟨d, hpd, not_lt.mp hold⟩
                by_cases hlen : 3 ≤ (acc ++
                    [{ title := e.title.getD "No Title",
                       url := e.link.getD (e.url.getD ""), date := pd,
                       full_article_text :=
                         env.extract (e.link.getD (e.url.getD "")) : EuArticle }]).length
                · rw [if_pos hlen] at ha
                  exact hacc' a ha
                · rw [if_neg hlen] at ha
                  exact ih _ hacc' a ha

end NLPStock

namespace NLPStock

/-- Unix timestamps (seconds) for the counterexample: the article's
`time_published` `20240101T000000` (2024-01-01 00:00:00 UTC) and a fetch
time of 2024-02-01 00:00:00 UTC, exactly 31 days later. -/
def avCexArticleTime : ℤ := 1704067200

def avCexFetchTime : ℤ := 1706745600

def avOldItem : AVFeedItem :=
  { title := some "Old news", url := some "http://x", source := some "S",
    time_published := some "20240101T000000", summary := some "sum",
    ticker_sentiment := none }

def avCexEnv : AVEnv :=
  { apiKey := some "KEY", response := Except.ok (some [avOldItem]),
    getText := fun _ => "Real article body text",
    parseAVDate := fun _ => some "2024-01-01T00:00:00" }

/-- Counterexample to C6: the Alpha Vantage fetcher applies no recency
filter.  An article whose publication timestamp lies exactly 31 days
before the fetch time is retained in its returned list. -/
theorem fetch_alpha_vantage_retains_31_day_old_article :
    fetch_alpha_vantage_news avCexEnv "AAPL"
        = [{ title := "Old news", url := "http://x", source := "S",
             date := "2024-01-01T00:00:00Z",
             full_article_text := "Real article body text" }]
      ∧ avCexFetchTime - avCexArticleTime = 31 * daySecs
      ∧ avCexArticleTime < avCexFetchTime - 30 * daySecs := by
  refine ⟨rfl, by decide, by decide⟩

/-- C6 (amended): the 30-day recency filter is not applied by every
fetcher.  The European fetcher applies it — every article it returns
carries a date that parses to a timestamp no older than 30 days before
fetch time, and an in-window entry with a URL and extractable text is
retained — but the Alpha Vantage fetcher applies no date filter at all:
a single-item feed is returned (formatted) whatever its `time_published`,
however old. -/
theorem recency_filter_not_universal :
    (∀ (env : EuEnv) (rss : Except Unit (List EuFeedEntry)) a,
      a ∈ fetch_european_news env rss →
      ∃ d, env.parseDate a.date = Except.ok d ∧ env.now - 30 * daySecs ≤ d)
    ∧ (∀ (env : EuEnv) (e : EuFeedEntry) (pd : String) (d : ℤ),
        e.published = some pd → pd ≠ "" → env.parseDate pd = Except.ok d →
        env.now - 30 * daySecs ≤ d → e.link.getD (e.url.getD "") ≠ "" →
        env.extract (e.link.getD (e.url.getD "")) ≠ sentinel →
        fetch_european_news env (Except.ok [e])
          = [{ title := e.title.getD "No Title",
               url := e.link.getD (e.url.getD ""), date := pd,
               full_article_text :=
                 env.extract (e.link.getD (e.url.getD "")) }])
    ∧ (∀ (k sym u : String) (getText : String → String)
        (pav : String → Option String) (item : AVFeedItem),
        item.url = some u →
        ∃ out, avFormatItem ⟨some k, Except.ok (some [item]), getText, pav⟩ item
            = Except.ok out
          ∧ fetch_alpha_vantage_news
              ⟨some k, Except.ok (some [item]), getText, pav⟩ sym = [out]) := by
  refine ⟨?_, ?_, ?_⟩
  · intro env rss a ha
    cases rss with
    | error e => simp [fetch_european_news] at ha
    | ok entries =>
      rw [fetch_european_news] at ha
      exact euLoop_window_invariant env entries [] (by simp) a ha
  · intro env e pd d hpub hemp hpd hin hurl hsent
    rw [fetch_european_news, euLoop]
    simp only [hpub, if_neg hemp, hpd, if_neg (not_lt.mpr hin), if_neg hurl,
      if_neg hsent]
    rw [euLoop]
    simp
  · intro k sym u getText pav item hurl
    refine ⟨{ title := item.title.getD "No title",
              url := item.url.getD "No URL",
              source := item.source.getD "Alpha Vantage",
              date := (match item.time_published with
                | none => "Unknown date"
                | some tp => (match pav tp with
                  | some iso => iso ++ "Z"
                  | none => tp)),
              full_article_text :=
                (if startsWithS (getText u) "Full article text not available"
                    || startsWithS (getText u) "Error retrieving" then
                  item.summary.getD "No summary available"
                else getText u) }, ?_, ?_⟩
    · simp only [avFormatItem, hurl]
    · simp only [fetch_alpha_vantage_news, stableSortDesc, List.foldl,
        insertDescBy, List.take, List.map, avFormatItems, avFormatItem, hurl]

end NLPStock

namespace NLPStock

def euWitEnv : EuEnv :=
  { parseDate := fun _ => Except.ok (971 * daySecs),
    extract := fun _ => "body", now := 1000 * daySecs }

def euWitEntry : EuFeedEntry :=
  { published := some "Mon, 02 Sep 2024", title := some "T",
    link := some "http://u" }

/-- Witness for C6's amended theorem: an entry dated 29 days before fetch
time with extractable text is retained by the European fetcher, and the
Alpha Vantage single-item feed is returned whatever its date. -/
theorem recency_filter_not_universal_witness :
    fetch_european_news euWitEnv (Except.ok [euWitEntry])
        = [{ title := "T", url := "http://u", date := "Mon, 02 Sep 2024",
             full_article_text := "body" }]
      ∧ ∃ out,
        avFormatItem ⟨some "K", Except.ok (some [avOldItem]),
            fun _ => "t", fun _ => none⟩ avOldItem = Except.ok out
          ∧ fetch_alpha_vantage_news
              ⟨some "K", Except.ok (some [avOldItem]),
                fun _ => "t", fun _ => none⟩ "AAPL" = [out] :=
  ⟨recency_filter_not_universal.2.1 euWitEnv euWitEntry "Mon, 02 Sep 2024"
      (971 * daySecs) rfl (by decide) rfl (by decide) (by decide) (by decide),
   recency_filter_not_universal.2.2 "K" "AAPL" "http://x"
      (fun _ => "t") (fun _ => none) avOldItem rfl⟩

end NLPStock

namespace NLPStock

/-! ### C7: sticky degradation -/

/-- A run environment whose generation backend raises on every attempt of
every call (modelling a persistent authentication failure) while the model
loads fine. -/
def authFailEnv : Env :=
  { extract := fun _ => "",
    nlp := ⟨fun _ => [], fun _ => Except.ok [], fun _ => []⟩,
    initRaises := fun _ => false,
    pipeline := fun _ _ => none,
    nowStr := "" }

/-- Counterexample to C7: with a backend that raises an
authentication-class error on every attempt, the first summarization call
makes three pipeline attempts — and the *second* call of the same run
makes three pipeline attempts again, instead of switching to the fallback
path without re-attempting the backend.  Nothing is sticky across calls:
`use_fallback` is set only by a failed model load, and each call
constructs a fresh client. -/
theorem summarize_article_reattempts_backend_cex :
    (summarize_article authFailEnv "first article text" "AAPL" "up").2 = 3
      ∧ (summarize_article authFailEnv "second article text" "AAPL" "up").2 = 3
      ∧ (3 : Nat) ≠ 0 :=
  ⟨rfl, rfl, by decide⟩

/-- C7 (amended): the only sticky fallback is the per-instance
`use_fallback` flag set when the FinBERT model fails to *load*: such a
client answers every `generate` call from the fallback template with zero
pipeline attempts.  A generation-time error — authentication included — is
instead retried up to three times within the call and falls back for that
call only, without marking the client; and each summarization call builds
a fresh client whose initialization is re-attempted. -/
theorem llm_fallback_sticky_only_per_instance_init
    (pl : Nat → Option (List SentScore)) (prompt : String) :
    ((LLMClient.init true).generate pl prompt = (generate_fallback prompt, 0))
      ∧ ((∀ i, pl i = none) →
        (LLMClient.init false).generate pl prompt = (generate_fallback prompt, 3))
      ∧ (∀ (env : Env) (t : String), t ≠ "" → t ≠ sentinel →
        (summarize_article env t "AAPL" "up").1
          = some ((LLMClient.init (env.initRaises (articlePrompt "AAPL" "up" t))).generate
              (env.pipeline (articlePrompt "AAPL" "up" t))
              (articlePrompt "AAPL" "up" t)).1) := by
  refine ⟨rfl, ?_, ?_⟩
  · intro hall
    rw [LLMClient.generate]
    simp only [LLMClient.init, if_neg (by decide : ¬(true = false))]
    rw [generateLoop]
    simp only [hall 0]
    rw [if_neg (by decide : ¬((2 : Nat) = 0)), generateLoop]
    simp only [hall 1]
    rw [if_neg (by decide : ¬((1 : Nat) = 0)), generateLoop]
    simp only [hall 2]
    rfl
  · intro env t ht hts
    rw [summarize_article]
    simp only [ht, hts, if_neg]
    simp [ht, hts]

/-- Witness for C7's amended theorem at concrete inputs. -/
theorem llm_fallback_sticky_only_per_instance_init_witness :
    ((LLMClient.init true).generate (fun _ => none) "p"
        = (generate_fallback "p", 0))
      ∧ ((LLMClient.init false).generate (fun _ => none) "p"
        = (generate_fallback "p", 3))
      ∧ (summarize_article authFailEnv "first article text" "AAPL" "up").1
          = some ((LLMClient.init
              (authFailEnv.initRaises (articlePrompt "AAPL" "up" "first article text"))).generate
            (authFailEnv.pipeline (articlePrompt "AAPL" "up" "first article text"))
            (articlePrompt "AAPL" "up" "first article text")).1 :=
  ⟨(llm_fallback_sticky_only_per_instance_init (fun _ => none) "p").1,
   (llm_fallback_sticky_only_per_instance_init (fun _ => none) "p").2.1 (fun _ => rfl),
   (llm_fallback_sticky_only_per_instance_init (fun _ => none) "p").2.2 authFailEnv
     "first article text" (by decide) (by decide)⟩

end NLPStock

namespace NLPStock

/-! ### String non-emptiness and substring helpers -/

theorem strToList_append (a b : String) :
    (a ++ b).toList = a.toList ++ b.toList := by
  cases a
  cases b
  rfl

theorem infixOfL_nil_needle : ∀ hay : List Char, infixOfL [] hay = true := by
  intro hay
  cases hay <;> simp [infixOfL, startsWithL]

theorem startsWithL_self_append (n rest : List Char) :
    startsWithL n (n ++ rest) = true := by
  induction n with
  | nil => rfl
  | cons c cs ih => simp [startsWithL, ih]

theorem infixOfL_append_middle (n : List Char) :
    ∀ xs ys : List Char, infixOfL n (xs ++ n ++ ys) = true := by
  intro xs
  induction xs with
  | nil =>
    intro ys
    cases hn : n with
    | nil => simpa using infixOfL_nil_needle ys
    | cons c cs =>
      show infixOfL (c :: cs) ((c :: cs) ++ ys) = true
      cases hcat : (c :: cs) ++ ys with
      | nil => simp at hcat
      | cons d ds =>
        rw [infixOfL, ← hcat, startsWithL_self_append]
        rfl
  | cons x xs ih =>
    intro ys
    rw [List.cons_append, List.cons_append, infixOfL, ih, Bool.or_true]

/-- Any string occurs as a substring of a concatenation that contains it in
the middle. -/
theorem substrB_middle (needle a b : String) :
    substrB needle (a ++ needle ++ b) = true := by
  unfold substrB
  rw [strToList_append, strToList_append]
  exact infixOfL_append_middle needle.toList a.toList b.toList

theorem strAppend_ne_empty_left (a b : String) (ha : a ≠ "") : a ++ b ≠ "" := by
  cases a with
  | mk la =>
    cases b with
    | mk lb =>
      intro h
      have hl : la ++ lb = ([] : List Char) := congrArg String.data h
      rcases List.append_eq_nil.mp hl with ⟨h1, _⟩
      exact ha (by rw [h1])

theorem strAppend_ne_empty_right (a b : String) (hb : b ≠ "") : a ++ b ≠ "" := by
  cases a with
  | mk la =>
    cases b with
    | mk lb =>
      intro h
      have hl : la ++ lb = ([] : List Char) := congrArg String.data h
      rcases List.append_eq_nil.mp hl with ⟨_, h2⟩
      exact hb (by rw [h2])

/-! ### C2: empty or missing news cache -/

set_option maxRecDepth 40000 in
/-- Counterexample to C2: when the news cache file *exists but holds an
empty article list*, `why_it_moves` returns the canned "no news currently
affecting the stock price" summary, which does not reference
`daily_change_percentage` (here 1.37%, formatted "1.37", absent from the
text) — only the *missing-file* path references the raw percentage.  The
degraded path still performs no extractor, NLP or generation work. -/
theorem why_it_moves_empty_cache_no_percentage_cex :
    (why_it_moves authFailEnv (some (Except.ok [])) "AAPL" "NASDAQ"
        (mkRat 137 100)).1.summary = noNewsSummary
      ∧ fmt2 (mkRat 137 100) = "1.37"
      ∧ substrB (fmt2 (mkRat 137 100)) noNewsSummary = false
      ∧ (why_it_moves authFailEnv (some (Except.ok [])) "AAPL" "NASDAQ"
          (mkRat 137 100)).2 = Effects.none' := by
  refine ⟨rfl, by decide, by decide, rfl⟩

/-- C2 (amended): with a *missing* news cache file, `why_it_moves` returns
the no-news-data summary, whose text contains the formatted raw
`daily_change_percentage`, carries no processed-article trail, and the run
performs no extractor, NLP or generation work; with an *empty* cache (the
file exists and parses to zero articles) it returns the canned no-news
summary — which does not depend on the percentage — likewise with no
processed articles and no extractor/NLP/generation work. -/
theorem why_it_moves_empty_or_missing_cache (env : Env)
    (symbol exchange : String) (pct : ℚ) :
    ((why_it_moves env none symbol exchange pct).1.summary
          = noNewsDataSummary symbol pct
        ∧ substrB (fmt2 pct)
            (why_it_moves env none symbol exchange pct).1.summary = true
        ∧ (why_it_moves env none symbol exchange pct).1.processed_articles = none
        ∧ (why_it_moves env none symbol exchange pct).2 = Effects.none')
      ∧ ((why_it_moves env (some (Except.ok [])) symbol exchange pct).1.summary
          = noNewsSummary
        ∧ (why_it_moves env (some (Except.ok []))
            symbol exchange pct).1.processed_articles = none
        ∧ (why_it_moves env (some (Except.ok [])) symbol exchange pct).2
          = Effects.none') := by
  constructor
  · refine ⟨rfl, ?_, rfl, rfl⟩
    show substrB (fmt2 pct) (noNewsDataSummary symbol pct) = true
    unfold noNewsDataSummary
    exact substrB_middle (fmt2 pct)
      ("No news data available for " ++ symbol
        ++ ". The stock's movement of ")
      "% may be related to market conditions or unreported news."
  · exact ⟨rfl, rfl, rfl⟩

end NLPStock

namespace NLPStock

/-! ### C1: the summary is always populated -/

theorem generate_fallback_ne_empty (prompt : String) :
    generate_fallback prompt ≠ "" := by
  unfold generate_fallback
  split_ifs <;>
    first
      | decide
      | exact strAppend_ne_empty_right _ _ (by decide)

theorem craft_response_ne_empty (prompt : String) (scores : List SentScore)
    (r : String) (h : craft_response prompt scores = some r) : r ≠ "" := by
  unfold craft_response at h
  cases hm : maxByScore scores with
  | none => rw [hm] at h; exact Option.noConfusion h
  | some dom =>
    rw [hm] at h
    dsimp only at h
    split_ifs at h <;>
      (injection h with h0; subst h0;
       first
         | decide
         | exact strAppend_ne_empty_right _ _ (by decide))

theorem generateLoop_ne_empty (pl : Nat → Option (List SentScore))
    (prompt : String) : ∀ fuel i : Nat, (generateLoop pl prompt i fuel).1 ≠ "" := by
  intro fuel
  induction fuel with
  | zero =>
    intro i
    rw [generateLoop]
    exact generate_fallback_ne_empty prompt
  | succ f ih =>
    intro i
    rw [generateLoop]
    cases hp : pl i with
    | none =>
      dsimp only
      split_ifs
      · exact generate_fallback_ne_empty prompt
      · exact ih (i + 1)
    | some scores =>
      dsimp only
      cases hc : craft_response prompt scores with
      | none =>
        dsimp only
        split_ifs
        · exact generate_fallback_ne_empty prompt
        · exact ih (i + 1)
      | some r =>
        dsimp only
        exact craft_response_ne_empty prompt scores r hc

theorem generate_ne_empty (c : LLMClient) (pl : Nat → Option (List SentScore))
    (prompt : String) : (c.generate pl prompt).1 ≠ "" := by
  rw [LLMClient.generate]
  split_ifs
  · exact generate_fallback_ne_empty prompt
  · exact generateLoop_ne_empty pl prompt 3 0

theorem summarize_articles_ne_empty (env : Env) (l : List String)
    (symbol : String) : summarize_articles env l symbol ≠ "" := by
  rw [summarize_articles]
  dsimp only
  split_ifs
  · decide
  · decide
  · exact generate_ne_empty _ _ _

theorem process_company_data_summary_ne_empty (env : Env)
    (symbol exchange : String) (arts : List (Option Article)) (cls : String) :
    (process_company_data env symbol exchange arts cls).1.summary ≠ "" := by
  rw [process_company_data]
  dsimp only
  by_cases h1 : arts.isEmpty
  · rw [if_pos h1]
    dsimp only
    decide
  · rw [if_neg h1]
    by_cases h2 : ((arts.map (enrichArticle env.extract)).map (fun t => t.2.1)).sum = 0
    · rw [if_pos h2]
      dsimp only
      decide
    · rw [if_neg h2]
      cases hb : process_articles_batch env.nlp
          ((arts.map (enrichArticle env.extract)).map (fun t => t.1))
          symbol symbol with
      | error e =>
        simp only [hb]
        decide
      | ok processed =>
        simp only [hb]
        by_cases h3 : ((summariesLoop env symbol
            (if cls = "gainer" then "up"
              else if cls = "loser" then "down" else "neutral")
            processed).2.1.filter (fun s => !(s == ""))).isEmpty
        · rw [if_pos h3]
          dsimp only
          decide
        · rw [if_neg h3]
          dsimp only
          exact summarize_articles_ne_empty env _ symbol

/-- C1: `why_it_moves` always returns a summary record whose `summary`
field is a non-empty string, whatever the environment (network, NLP and
generation oracles, including raising ones) and inputs; and each degraded
path carries its canned non-empty text: missing news file → the
no-news-data template; no article with usable text → the "no news
currently affecting" text; no valid per-article summaries (an article with
empty extracted text) → the "no valid article summaries" text; an error
raised during distillation → the "error generating the summary" text.
The embedding is total: no exception escapes the orchestrator. -/
theorem why_it_moves_summary_always_nonempty :
    (∀ (env : Env) (newsFile : NewsFile) (symbol exchange : String) (pct : ℚ),
      (why_it_moves env newsFile symbol exchange pct).1.summary ≠ "")
    ∧ (∀ (env : Env) (symbol exchange : String) (pct : ℚ),
      (why_it_moves env none symbol exchange pct).1.summary
        = noNewsDataSummary symbol pct)
    ∧ (∀ (env : Env) (symbol exchange cls : String),
      (process_company_data env symbol exchange
          [some { full_article_text := some sentinel }] cls).1.summary
        = noNewsSummary)
    ∧ (∀ (env : Env) (symbol exchange cls : String),
      (process_company_data env symbol exchange
          [some { full_article_text := some "" }] cls).1.summary
        = "No valid article summaries could be generated.")
    ∧ (∀ (extract : String → String) (sentTok : String → List String)
        (kw : String → List String) (initR : String → Bool)
        (pl : String → Nat → Option (List SentScore)) (nowS : String)
        (symbol exchange cls : String),
      (process_company_data
          ⟨extract, ⟨sentTok, fun _ => Except.error (), kw⟩, initR, pl, nowS⟩
          symbol exchange [some { full_article_text := some "T" }] cls).1.summary
        = "There was an error generating the summary.") := by
  refine ⟨?_, fun env symbol exchange pct => rfl,
    fun env symbol exchange cls => rfl,
    fun env symbol exchange cls => rfl,
    fun extract sentTok kw initR pl nowS symbol exchange cls => rfl⟩
  intro env newsFile symbol exchange pct
  cases newsFile with
  | none =>
    show noNewsDataSummary symbol pct ≠ ""
    unfold noNewsDataSummary
    exact strAppend_ne_empty_right _ _ (by decide)
  | some f =>
    show (process_company_data env symbol exchange
        (get_news_articles (some f)) (classify_company pct)).1.summary ≠ ""
    exact process_company_data_summary_ne_empty env symbol exchange _ _

end NLPStock

namespace NLPStock

/-! ### C4: the distiller skips articles without real text -/

/-- C4: `process_article` returns `None` for a falsy article and for every
article whose `full_article_text` is absent, empty, or the NOT_FOUND
sentinel; a `ProcessedArticle` is produced only when the article carries
non-empty, non-sentinel text. -/
theorem process_article_only_for_real_text (env : NlpEnv) (a : Article)
    (company ticker : String) :
    (process_article env none company ticker = Except.ok none)
      ∧ (a.full_article_text = none ∨ a.full_article_text = some ""
          ∨ a.full_article_text = some sentinel →
        process_article env (some a) company ticker = Except.ok none)
      ∧ (∀ p, process_article env (some a) company ticker
          = Except.ok (some p) →
        ∃ t, a.full_article_text = some t ∧ t ≠ "" ∧ t ≠ sentinel) := by
  refine ⟨rfl, ?_, ?_⟩
  · intro h
    rcases h with h | h | h <;> simp [process_article, h]
  · intro p hp
    rw [process_article] at hp
    cases hfa : a.full_article_text with
    | none =>
      rw [hfa] at hp
      exact absurd (Except.ok.inj hp) (by simp)
    | some t =>
      rw [hfa] at hp
      by_cases h1 : t = ""
      · simp [h1] at hp
      · by_cases h2 : t = sentinel
        · simp [h1, h2] at hp
        · exact ⟨t, rfl, h1, h2⟩

def witNlpEnv : NlpEnv := ⟨fun _ => [], fun _ => Except.ok [], fun _ => []⟩

def artSentinelOnly : Article := { full_article_text := some sentinel }

def artGood : Article := { full_article_text := some "Good body text" }

/-- Witness for C4 at concrete articles: sentinel text gives `None`, and a
processed article implies real text. -/
theorem process_article_only_for_real_text_witness :
    process_article witNlpEnv (some artSentinelOnly) "ACME" "ACM"
        = Except.ok none
      ∧ (∃ t, artGood.full_article_text = some t ∧ t ≠ "" ∧ t ≠ sentinel) :=
  ⟨(process_article_only_for_real_text witNlpEnv artSentinelOnly
      "ACME" "ACM").2.1 (Or.inr (Or.inr rfl)),
   (process_article_only_for_real_text witNlpEnv artGood "ACME" "ACM").2.2
     { title := "", url := "", date := "", key_sentences := "",
       named_entities := [], keywords := [],
       condensed_text := "Title: \n\nKey information: \n\n" } (by rfl)⟩

end NLPStock
